import Mathlib

/-!
Shallow embedding of the Local-Pilot frontend core:
`src/mock-tauri.ts` (the command backend reachable in this repository) and the
`App` handlers of the main component (`handleSubmit`, `handleApproveOperation`,
`handleRejectOperation`, `updateOperationStatus`).

Modelling conventions:
- JS dynamic values (`unknown` / `any`) are a `Value` tree (string, number,
  list, object, null).
- `Math.random()` (a float in [0,1)) is modelled as an explicit rational
  parameter; the only use in the source is the comparison `random > 0.7`.
- `Date.now()` is an explicit `Nat` parameter (`now` at handler entry, `now2`
  at the post-await calls).
- React `setX` state updates become explicit state passing over `AppState`;
  an async handler is a function from its entry state, the invoke outcome and
  the clock values to the final state.
- `await invoke(...)` may resolve or throw: the outcome is an explicit
  `InvokeOutcome` parameter to the handler; the list of issued backend calls
  is returned alongside the state so that "no backend invocation" is statable.
- `console.log` in the mock `invoke` produces a `LogEntry`; a handler composed
  with the mock returns its log.
-/

/-- A JS runtime value as used by the mock backend (strings, numbers,
arrays, plain objects, null/undefined collapsed to `vnull`). -/
inductive Value where
  | vstr (s : String)
  | vnum (n : Int)
  | vlist (vs : List Value)
  | vobj (fields : List (String × Value))
  | vnull
  deriving Repr

/-- Property access `args?.key` on a `Record<string, unknown>`. -/
def lookupArg (args : List (String × Value)) (key : String) : Option Value :=
  (args.find? fun kv => kv.1 = key).map Prod.snd

mutual
/-- JS string conversion `String(v)` / template-literal interpolation. -/
def displayValue : Value → String
  | .vstr s => s
  | .vnum n => toString n
  | .vnull => "null"
  | .vlist vs => String.intercalate "," (displayValueList vs)
  | .vobj _ => "[object Object]"

def displayValueList : List Value → List String
  | [] => []
  | v :: vs => displayValue v :: displayValueList vs
end

/-- Interpolating a possibly-missing property (`${args?.name}` shows
`undefined` when absent). -/
def displayOptValue : Option Value → String
  | none => "undefined"
  | some v => displayValue v

def jsonEscape (s : String) : String :=
  String.join (s.data.map fun c =>
    if c = '"' then "\\\"" else if c = '\\' then "\\\\" else String.singleton c)

mutual
/-- `JSON.stringify` on the `Value` fragment used by the app. -/
def jsonStringify : Value → String
  | .vstr s => "\"" ++ jsonEscape s ++ "\""
  | .vnum n => toString n
  | .vnull => "null"
  | .vlist vs => "[" ++ String.intercalate "," (jsonStringifyList vs) ++ "]"
  | .vobj fs => "\x7b" ++ String.intercalate "," (jsonStringifyFields fs) ++ "\x7d"

def jsonStringifyList : List Value → List String
  | [] => []
  | v :: vs => jsonStringify v :: jsonStringifyList vs

def jsonStringifyFields : List (String × Value) → List String
  | [] => []
  | kv :: fs => ("\"" ++ jsonEscape kv.1 ++ "\":" ++ jsonStringify kv.2) :: jsonStringifyFields fs
end

example : displayValue (Value.vstr "abc") = "abc" := rfl
example : jsonStringify (Value.vobj [("path", Value.vstr "/x")]) = "\x7b\"path\":\"/x\"\x7d" := rfl

/-! ## The mock Tauri backend (`src/mock-tauri.ts`) -/

/-- A `console.log` record of the mock `invoke`: the formatted first argument
and the raw args record logged alongside it. -/
abbrev LogEntry := String × List (String × Value)

/-- A backend call issued by a handler: command name and args record. -/
abbrev InvokeCall := String × List (String × Value)

def mockLogEntry (command : String) (args : List (String × Value)) : LogEntry :=
  ("Mock Tauri invoke: " ++ command, args)

/-- The two tool descriptors returned by `list_mcp_tools`. -/
def mockTools : Value :=
  Value.vlist
    [Value.vobj
      [("name", Value.vstr "file_reader"),
       ("description", Value.vstr "读取本地文件内容"),
       ("input_schema", Value.vobj
         [("type", Value.vstr "object"),
          ("properties", Value.vobj
            [("path", Value.vobj
              [("type", Value.vstr "string"),
               ("description", Value.vstr "文件路径")])]),
          ("required", Value.vlist [Value.vstr "path"])])],
     Value.vobj
      [("name", Value.vstr "shell_executor"),
       ("description", Value.vstr "在本地执行shell命令"),
       ("input_schema", Value.vobj
         [("type", Value.vstr "object"),
          ("properties", Value.vobj
            [("command", Value.vobj
              [("type", Value.vstr "string"),
               ("description", Value.vstr "要执行的命令")])]),
          ("required", Value.vlist [Value.vstr "command"])])]]

/-- The fixed result list of `search_local_files`. -/
def mockSearchResults : Value :=
  Value.vlist
    [Value.vobj
      [("id", Value.vstr "1"), ("name", Value.vstr "example.txt"),
       ("path", Value.vstr "/home/user/example.txt"), ("size", Value.vnum 1024)],
     Value.vobj
      [("id", Value.vstr "2"), ("name", Value.vstr "document.pdf"),
       ("path", Value.vstr "/home/user/documents/document.pdf"), ("size", Value.vnum 2048)]]

/-- The `switch (command)` body of the mock `invoke`. `Math.random()` is the
explicit rational `random`; the JS comparison `random > 0.7` becomes
`(0.7 : ℚ) < random`. The mock never throws, so the returned value is total. -/
def mockInvoke (command : String) (args : List (String × Value)) (random : ℚ) : Value :=
  if command = "greet" then
    Value.vstr ("Hello, " ++ displayOptValue (lookupArg args "name") ++
      "! You've been greeted from Mock Rust!")
  else if command = "init_mcp" then
    Value.vstr "MCP initialized successfully"
  else if command = "list_mcp_tools" then
    mockTools
  else if command = "process_user_message" then
    if (0.7 : ℚ) < random then
      Value.vstr "PENDING_APPROVAL"
    else
      Value.vstr ("Processed message: \"" ++ displayOptValue (lookupArg args "message") ++ "\"")
  else if command = "approve_tool_call" then
    Value.vstr ("Tool call " ++ displayOptValue (lookupArg args "toolName") ++
      " approved and executed")
  else if command = "search_local_files" then
    mockSearchResults
  else if command = "refresh_file_index" then
    Value.vstr "File index refreshed successfully"
  else
    Value.vstr ("Mock response for command: " ++ command)

/-! ## App state (`App.tsx`, `src/unnamed/part_001`) -/

inductive Role where
  | user
  | assistant
  deriving Repr, DecidableEq

/-- A chat message; `new Date()` timestamps are clock ticks. -/
structure Message where
  id : String
  content : String
  role : Role
  timestamp : Nat
  deriving Repr, DecidableEq

inductive OpStatus where
  | pending
  | executing
  | completed
  | failed
  deriving Repr, DecidableEq

structure OperationPreview where
  id : String
  title : String
  description : String
  status : OpStatus
  deriving Repr, DecidableEq

structure PendingApproval where
  id : String
  toolName : String
  arguments : Value
  description : String
  deriving Repr

/-- The React state of `App`. -/
structure AppState where
  messages : List Message
  inputValue : String
  isLoading : Bool
  operationPreviews : List OperationPreview
  pendingApproval : Option PendingApproval
  mcpServers : List String
  deriving Repr

def initialMessages : List Message :=
  [{ id := "1", content := "你好！我是Local Pilot助手，我可以帮助你与本地系统交互。",
     role := Role.assistant, timestamp := 0 }]

def initialOperationPreviews : List OperationPreview :=
  [{ id := "op1", title := "文件读取", description := "读取本地文件内容", status := OpStatus.pending },
   { id := "op2", title := "命令执行", description := "执行本地shell命令", status := OpStatus.pending }]

def initialState : AppState :=
  { messages := initialMessages, inputValue := "", isLoading := false,
    operationPreviews := initialOperationPreviews, pendingApproval := none,
    mcpServers := ["Filesystem", "SQLite"] }

/-- `updateOperationStatus` from the component: functional map over previews. -/
def updateOperationStatus (ops : List OperationPreview) (id : String) (st : OpStatus) :
    List OperationPreview :=
  ops.map fun op => if op.id = id then { op with status := st } else op

/-- The `if (operationPreviews.length > 0) updateOperationStatus(operationPreviews[0].id, st)`
pattern shared by all three handlers. -/
def updateFirstOperation (s : AppState) (st : OpStatus) : AppState :=
  match s.operationPreviews with
  | [] => s
  | op :: _ => { s with operationPreviews := updateOperationStatus s.operationPreviews op.id st }

/-- Outcome of an awaited `invoke`: resolved value, or thrown error
(carrying `(error as Error).message`). -/
inductive InvokeOutcome where
  | ok (v : Value)
  | thrown (message : String)
  deriving Repr

/-- The environment configuration read via `process.env` in `handleSubmit`. -/
structure EnvConfig where
  ANTHROPIC_API_KEY : Option String
  API_BASE : Option String
  MODEL_NAME : Option String
  deriving Repr, DecidableEq

/-- JS `x || d` on an optional string: `undefined` and `""` are falsy. -/
def envOr (v : Option String) (d : String) : String :=
  match v with
  | none => d
  | some s => if s = "" then d else s

/-- JS `String.prototype.trim()`: drop leading and trailing whitespace.
Defined structurally over the character list so it evaluates in the kernel. -/
def jsTrim (s : String) : String :=
  String.mk (((s.data.dropWhile Char.isWhitespace).reverse.dropWhile Char.isWhitespace).reverse)

/-! ## Handlers -/

/-- The args record of the `process_user_message` call in `handleSubmit`. -/
def submitCallArgs (env : EnvConfig) (input : String) : List (String × Value) :=
  [("message", Value.vstr input),
   ("apiKey", Value.vstr (envOr env.ANTHROPIC_API_KEY "")),
   ("apiBase", Value.vstr (envOr env.API_BASE "https://api.anthropic.com")),
   ("modelName", Value.vstr (envOr env.MODEL_NAME "claude-3-5-sonnet-20241022"))]

/-- `userMessage` literal of `handleSubmit`. -/
def submitUserMessage (now : Nat) (input : String) : Message :=
  { id := toString now, content := input, role := Role.user, timestamp := now }

/-- The `pendingApproval` record set by `handleSubmit` on the sentinel. -/
def submitPendingApproval (now2 : Nat) : PendingApproval :=
  { id := toString now2, toolName := "dangerous_operation",
    arguments := Value.vobj [("path", Value.vstr "/example/path")],
    description := "执行潜在危险操作: 删除 /example/path" }

/-- `aiMessage` literal of `handleSubmit`. -/
def submitAiMessage (now2 : Nat) (result : Value) : Message :=
  { id := toString (now2 + 1),
    content := "AI回复: " ++ (match result with | Value.vstr str => str | _ => "操作已完成"),
    role := Role.assistant, timestamp := now2 }

/-- `errorMessage` literal of `handleSubmit`'s catch block. -/
def submitErrorMessage (now2 : Nat) (err : String) : Message :=
  { id := toString (now2 + 1), content := "错误: " ++ err,
    role := Role.assistant, timestamp := now2 }

/-- JS `result === 'PENDING_APPROVAL'`. -/
def isPendingSentinel : Value → Bool
  | Value.vstr s => s = "PENDING_APPROVAL"
  | _ => false

/-- `handleSubmit(e)`: `now` is `Date.now()` at entry, `now2` the post-await
clock, `outcome` the resolution of the single `invoke` the handler awaits.
Returns the final state and the backend calls issued. -/
def handleSubmit (env : EnvConfig) (now now2 : Nat) (outcome : InvokeOutcome)
    (s : AppState) : AppState × List InvokeCall :=
  if jsTrim s.inputValue = "" ∨ s.isLoading = true then
    (s, [])
  else
    let input := s.inputValue
    let s1 : AppState :=
      { s with messages := s.messages ++ [submitUserMessage now input],
               inputValue := "", isLoading := true }
    let s2 := updateFirstOperation s1 OpStatus.executing
    let calls : List InvokeCall := [("process_user_message", submitCallArgs env input)]
    match outcome with
    | InvokeOutcome.ok result =>
      if isPendingSentinel result then
        ({ s2 with pendingApproval := some (submitPendingApproval now2),
                   isLoading := false }, calls)
      else
        let s3 := { s2 with messages := s2.messages ++ [submitAiMessage now2 result] }
        let s4 := updateFirstOperation s3 OpStatus.completed
        ({ s4 with isLoading := false }, calls)
    | InvokeOutcome.thrown err =>
      let s3 := { s2 with messages := s2.messages ++ [submitErrorMessage now2 err] }
      let s4 := updateFirstOperation s3 OpStatus.failed
      ({ s4 with isLoading := false }, calls)

/-- The args record of the `approve_tool_call` call in `handleApproveOperation`. -/
def approveCallArgs (p : PendingApproval) : List (String × Value) :=
  [("toolName", Value.vstr p.toolName),
   ("arguments", Value.vstr (jsonStringify p.arguments))]

/-- `resultMessage` literal of `handleApproveOperation`. -/
def approveResultMessage (now2 : Nat) (result : Value) : Message :=
  { id := toString now2, content := "操作结果: " ++ displayValue result,
    role := Role.assistant, timestamp := now2 }

/-- `errorMessage` literal of `handleApproveOperation`'s catch block. -/
def approveErrorMessage (now2 : Nat) (err : String) : Message :=
  { id := toString now2, content := "批准操作失败: " ++ err,
    role := Role.assistant, timestamp := now2 }

/-- `handleApproveOperation`: early return on no pending approval; otherwise
one `approve_tool_call` invoke whose resolution is `outcome`. -/
def handleApproveOperation (now2 : Nat) (outcome : InvokeOutcome) (s : AppState) :
    AppState × List InvokeCall :=
  match s.pendingApproval with
  | none => (s, [])
  | some p =>
    let calls : List InvokeCall := [("approve_tool_call", approveCallArgs p)]
    match outcome with
    | InvokeOutcome.ok result =>
      let s1 := { s with messages := s.messages ++ [approveResultMessage now2 result],
                         pendingApproval := none }
      (updateFirstOperation s1 OpStatus.completed, calls)
    | InvokeOutcome.thrown err =>
      let s1 := { s with messages := s.messages ++ [approveErrorMessage now2 err] }
      (updateFirstOperation s1 OpStatus.failed, calls)

/-- `rejectMessage` literal of `handleRejectOperation`;
`pendingApproval?.description || '未知操作'` treats a missing approval and an
empty description alike. -/
def rejectMessage (now2 : Nat) (pending : Option PendingApproval) : Message :=
  { id := toString now2,
    content := "操作已拒绝: " ++
      (match pending with
       | some p => if p.description = "" then "未知操作" else p.description
       | none => "未知操作"),
    role := Role.assistant, timestamp := now2 }

/-- `handleRejectOperation`: purely local, no `invoke` call at all. -/
def handleRejectOperation (now2 : Nat) (s : AppState) : AppState × List InvokeCall :=
  let s1 := { s with messages := s.messages ++ [rejectMessage now2 s.pendingApproval],
                     pendingApproval := none }
  (updateFirstOperation s1 OpStatus.failed, [])

/-! ## Handlers composed with the mock backend -/

/-- `handleSubmit` where the awaited `invoke` is the mock backend; the second
component is the `console.log` output the mock produced. -/
def handleSubmitMock (env : EnvConfig) (now now2 : Nat) (random : ℚ) (s : AppState) :
    AppState × List LogEntry :=
  let outcome := InvokeOutcome.ok
    (mockInvoke "process_user_message" (submitCallArgs env s.inputValue) random)
  let res := handleSubmit env now now2 outcome s
  (res.1, res.2.map fun c => mockLogEntry c.1 c.2)

/-- `handleApproveOperation` where the awaited `invoke` is the mock backend. -/
def handleApproveOperationMock (now2 : Nat) (random : ℚ) (s : AppState) :
    AppState × List LogEntry :=
  let outcome := match s.pendingApproval with
    | some p => InvokeOutcome.ok (mockInvoke "approve_tool_call" (approveCallArgs p) random)
    | none => InvokeOutcome.ok Value.vnull
  let res := handleApproveOperation now2 outcome s
  (res.1, res.2.map fun c => mockLogEntry c.1 c.2)

/-! ## Spec-side model of file search

The spec describes `search(query)` as returning exactly the index entries
matching a case-insensitive substring query over name and path. These
definitions follow the spec's words and exist only to be compared with the
behaviour of `search_local_files` in the source. -/

/-- A file index entry as listed by the spec and the mock result objects. -/
structure FileIndexEntry where
  id : String
  name : String
  path : String
  size : Int
  deriving Repr, DecidableEq

/-- `pat` occurs as a contiguous sublist of `s` (structural, kernel-evaluable). -/
def charsContain (pat : List Char) : List Char → Bool
  | [] => pat.isEmpty
  | c :: rest => pat.isPrefixOf (c :: rest) || charsContain pat rest

/-- Lower-casing a string character by character (JS `toLowerCase` on the
ASCII fragment used here). -/
def jsToLower (s : String) : String :=
  String.mk (s.data.map Char.toLower)

/-- Case-insensitive substring test (`q` occurs in `s`, ignoring case). -/
def containsCI (s q : String) : Bool :=
  charsContain (jsToLower q).data (jsToLower s).data

/-- Spec wording: a query matches an entry by case-insensitive substring
over name and path. -/
def specMatchesQuery (q : String) (e : FileIndexEntry) : Bool :=
  containsCI e.name q || containsCI e.path q

/-- Spec wording: search returns exactly the matching entries, in index
order, the empty sequence when nothing matches. -/
def specFileSearch (q : String) (index : List FileIndexEntry) : List FileIndexEntry :=
  index.filter (specMatchesQuery q)

/-- The entries behind `mockSearchResults`. -/
def mockIndexEntries : List FileIndexEntry :=
  [{ id := "1", name := "example.txt", path := "/home/user/example.txt", size := 1024 },
   { id := "2", name := "document.pdf", path := "/home/user/documents/document.pdf", size := 2048 }]

def fileEntryToValue (e : FileIndexEntry) : Value :=
  Value.vobj [("id", Value.vstr e.id), ("name", Value.vstr e.name),
              ("path", Value.vstr e.path), ("size", Value.vnum e.size)]

example : mockSearchResults = Value.vlist (mockIndexEntries.map fileEntryToValue) := rfl
example : specFileSearch "invoice" mockIndexEntries = [] := by decide
example : specFileSearch "EXAMPLE" mockIndexEntries
    = [{ id := "1", name := "example.txt", path := "/home/user/example.txt", size := 1024 }] := by
  decide
example : mockInvoke "process_user_message" [("message", Value.vstr "hi")] (4/5)
    = Value.vstr "PENDING_APPROVAL" := by
  unfold mockInvoke
  norm_num
  rfl
example : mockInvoke "process_user_message" [("message", Value.vstr "hi")] (1/2)
    = Value.vstr "Processed message: \"hi\"" := by
  unfold mockInvoke
  norm_num [lookupArg, displayOptValue, displayValue]
  rfl
example : jsTrim "   " = "" := by decide
example : jsTrim " hi " = "hi" := by decide

/-! ## Helper lemmas -/

theorem updateFirstOperation_pendingApproval (s : AppState) (st : OpStatus) :
    (updateFirstOperation s st).pendingApproval = s.pendingApproval := by
  unfold updateFirstOperation
  cases s.operationPreviews <;> rfl

theorem updateFirstOperation_messages (s : AppState) (st : OpStatus) :
    (updateFirstOperation s st).messages = s.messages := by
  unfold updateFirstOperation
  cases s.operationPreviews <;> rfl

theorem updateFirstOperation_isLoading (s : AppState) (st : OpStatus) :
    (updateFirstOperation s st).isLoading = s.isLoading := by
  unfold updateFirstOperation
  cases s.operationPreviews <;> rfl

theorem updateFirstOperation_inputValue (s : AppState) (st : OpStatus) :
    (updateFirstOperation s st).inputValue = s.inputValue := by
  unfold updateFirstOperation
  cases s.operationPreviews <;> rfl

/-- Whenever the guard passes, `handleSubmit` issues exactly one backend call,
`process_user_message` with the configured credentials, whatever the outcome. -/
theorem handleSubmit_calls (env : EnvConfig) (now now2 : Nat) (outcome : InvokeOutcome)
    (s : AppState) (hg : ¬ (jsTrim s.inputValue = "" ∨ s.isLoading = true)) :
    (handleSubmit env now now2 outcome s).2
      = [("process_user_message", submitCallArgs env s.inputValue)] := by
  unfold handleSubmit
  rw [if_neg hg]
  cases outcome with
  | ok v => by_cases hv : isPendingSentinel v = true <;> simp [hv]
  | thrown e => rfl

/-! ## Sample concrete inputs shared by the witnesses and counterexamples -/

def sampleEnv : EnvConfig :=
  { ANTHROPIC_API_KEY := some "secret-key-1", API_BASE := none, MODEL_NAME := none }

def sampleEnvB : EnvConfig :=
  { ANTHROPIC_API_KEY := some "secret-key-2", API_BASE := none, MODEL_NAME := none }

def sampleSubmitState : AppState := { initialState with inputValue := "hello" }

def samplePending : PendingApproval :=
  { id := "3", toolName := "shell_executor",
    arguments := Value.vobj [("command", Value.vstr "rm -rf /tmp/x")],
    description := "执行shell命令" }

def samplePendingState : AppState := { initialState with pendingApproval := some samplePending }

/-! ## Claims -/

/-- C9: a submission with whitespace-only input, or made while a previous one
is still loading, returns immediately: no backend command is invoked and the
message list, pending approval and all other state are returned unchanged. -/
theorem C9_submit_guard_no_effect (env : EnvConfig) (now now2 : Nat)
    (outcome : InvokeOutcome) (s : AppState)
    (h : jsTrim s.inputValue = "" ∨ s.isLoading = true) :
    handleSubmit env now now2 outcome s = (s, []) := by
  unfold handleSubmit
  rw [if_pos h]

/-- C9 witness: a whitespace-only input leaves the initial state untouched. -/
theorem C9_submit_guard_no_effect_witness :
    handleSubmit sampleEnv 0 1 (InvokeOutcome.ok Value.vnull)
        { initialState with inputValue := "   " }
      = ({ initialState with inputValue := "   " }, []) :=
  C9_submit_guard_no_effect sampleEnv 0 1 (InvokeOutcome.ok Value.vnull)
    { initialState with inputValue := "   " } (Or.inl (by decide))

/-- C5: after an explicit operator decision — an accept whose invoke resolves,
or a reject — the pending approval is cleared back to none, and a subsequent
submission can create a new approval request. -/
theorem C5_decision_returns_to_none (env : EnvConfig) (s : AppState) (p : PendingApproval)
    (now2 now3 now4 now5 : Nat) (v : Value)
    (h : s.pendingApproval = some p)
    (hin : ¬ jsTrim s.inputValue = "") (hld : s.isLoading = false) :
    (handleApproveOperation now2 (InvokeOutcome.ok v) s).1.pendingApproval = none
    ∧ (handleRejectOperation now3 s).1.pendingApproval = none
    ∧ (handleSubmit env now4 now5 (InvokeOutcome.ok (Value.vstr "PENDING_APPROVAL"))
        (handleApproveOperation now2 (InvokeOutcome.ok v) s).1).1.pendingApproval
      = some (submitPendingApproval now5) := by
  refine ⟨?_, ?_, ?_⟩
  · unfold handleApproveOperation
    rw [h]
    simp [updateFirstOperation_pendingApproval]
  · unfold handleRejectOperation
    simp [updateFirstOperation_pendingApproval]
  · have hin' : (handleApproveOperation now2 (InvokeOutcome.ok v) s).1.inputValue
        = s.inputValue := by
      unfold handleApproveOperation
      rw [h]
      simp [updateFirstOperation_inputValue]
    have hld' : (handleApproveOperation now2 (InvokeOutcome.ok v) s).1.isLoading
        = s.isLoading := by
      unfold handleApproveOperation
      rw [h]
      simp [updateFirstOperation_isLoading]
    unfold handleSubmit
    rw [if_neg (by rw [hin', hld', hld]; simp [hin])]
    rfl

/-- C5 witness: accepting and rejecting the sample pending approval both clear
it, and a new request can then be created by a later submission. -/
theorem C5_decision_returns_to_none_witness :
    (handleApproveOperation 4 (InvokeOutcome.ok (Value.vstr "done"))
        { samplePendingState with inputValue := "hello" }).1.pendingApproval = none
    ∧ (handleRejectOperation 5
        { samplePendingState with inputValue := "hello" }).1.pendingApproval = none
    ∧ (handleSubmit sampleEnv 6 7 (InvokeOutcome.ok (Value.vstr "PENDING_APPROVAL"))
        (handleApproveOperation 4 (InvokeOutcome.ok (Value.vstr "done"))
          { samplePendingState with inputValue := "hello" }).1).1.pendingApproval
      = some (submitPendingApproval 7) :=
  C5_decision_returns_to_none sampleEnv { samplePendingState with inputValue := "hello" }
    samplePending 4 5 6 7 (Value.vstr "done") rfl (by decide) rfl

/-- C8: if the `approve_tool_call` invoke throws, the pending approval keeps
its value (available for retry or rejection) and exactly one error message is
appended to the conversation. -/
theorem C8_approve_throw_preserves_pending (s : AppState) (p : PendingApproval)
    (now2 : Nat) (err : String) (h : s.pendingApproval = some p) :
    (handleApproveOperation now2 (InvokeOutcome.thrown err) s).1.pendingApproval = some p
    ∧ (handleApproveOperation now2 (InvokeOutcome.thrown err) s).1.messages
        = s.messages ++ [approveErrorMessage now2 err] := by
  unfold handleApproveOperation
  rw [h]
  refine ⟨?_, ?_⟩
  · simp [updateFirstOperation_pendingApproval, h]
  · simp [updateFirstOperation_messages]

/-- C8 witness: a thrown approval on the sample state keeps the pending
approval and appends the single error message. -/
theorem C8_approve_throw_preserves_pending_witness :
    (handleApproveOperation 9 (InvokeOutcome.thrown "network down")
        samplePendingState).1.pendingApproval = some samplePending
    ∧ (handleApproveOperation 9 (InvokeOutcome.thrown "network down")
        samplePendingState).1.messages
      = samplePendingState.messages ++ [approveErrorMessage 9 "network down"] :=
  C8_approve_throw_preserves_pending samplePendingState samplePending 9 "network down" rfl

/-- C10: rejecting a pending approval performs no backend invocation; it
appends exactly one rejection message, clears the pending approval, and marks
the first operation preview failed. -/
theorem C10_reject_is_local (s : AppState) (p : PendingApproval) (now2 : Nat)
    (op : OperationPreview) (rest : List OperationPreview)
    (h : s.pendingApproval = some p) (hops : s.operationPreviews = op :: rest) :
    (handleRejectOperation now2 s).2 = []
    ∧ (handleRejectOperation now2 s).1.messages
        = s.messages ++ [rejectMessage now2 (some p)]
    ∧ (handleRejectOperation now2 s).1.pendingApproval = none
    ∧ (handleRejectOperation now2 s).1.operationPreviews.head?
        = some { op with status := OpStatus.failed } := by
  refine ⟨rfl, ?_, ?_, ?_⟩
  · unfold handleRejectOperation
    simp [updateFirstOperation_messages, h]
  · unfold handleRejectOperation
    simp [updateFirstOperation_pendingApproval]
  · unfold handleRejectOperation
    unfold updateFirstOperation
    simp [hops, updateOperationStatus]

/-- C10 witness: rejecting the sample pending approval is local-only. -/
theorem C10_reject_is_local_witness :
    (handleRejectOperation 11 samplePendingState).2 = []
    ∧ (handleRejectOperation 11 samplePendingState).1.messages
        = samplePendingState.messages ++ [rejectMessage 11 (some samplePending)]
    ∧ (handleRejectOperation 11 samplePendingState).1.pendingApproval = none
    ∧ (handleRejectOperation 11 samplePendingState).1.operationPreviews.head?
        = some { id := "op1", title := "文件读取", description := "读取本地文件内容",
                 status := OpStatus.failed } :=
  C10_reject_is_local samplePendingState samplePending 11
    { id := "op1", title := "文件读取", description := "读取本地文件内容",
      status := OpStatus.pending }
    [{ id := "op2", title := "命令执行", description := "执行本地shell命令",
       status := OpStatus.pending }] rfl rfl

/-- C6: a collaborator failure — an invoke that throws during message
processing or approval — is caught and folded into the conversation as an
appended error message; the loading flag always ends false, and both handlers
are total, so no failure is process-fatal. -/
theorem C6_failures_folded_session_usable (env : EnvConfig) (now now2 : Nat)
    (err : String) (s : AppState)
    (hin : ¬ jsTrim s.inputValue = "") (hld : s.isLoading = false) :
    (∀ outcome, (handleSubmit env now now2 outcome s).1.isLoading = false)
    ∧ (handleSubmit env now now2 (InvokeOutcome.thrown err) s).1.messages
        = s.messages ++ [submitUserMessage now s.inputValue, submitErrorMessage now2 err]
    ∧ (∀ p, s.pendingApproval = some p →
        (handleApproveOperation now2 (InvokeOutcome.thrown err) s).1.messages
          = s.messages ++ [approveErrorMessage now2 err]) := by
  have hg : ¬ (jsTrim s.inputValue = "" ∨ s.isLoading = true) := by
    rw [hld]
    simp [hin]
  refine ⟨?_, ?_, ?_⟩
  · intro outcome
    unfold handleSubmit
    rw [if_neg hg]
    cases outcome with
    | ok v => by_cases hv : isPendingSentinel v = true <;> simp [hv]
    | thrown e => rfl
  · unfold handleSubmit
    rw [if_neg hg]
    simp [updateFirstOperation_messages]
  · intro p hp
    unfold handleApproveOperation
    rw [hp]
    simp [updateFirstOperation_messages]

/-- C6 witness: a thrown invoke on the sample submission is folded in as one
error message and leaves the loading flag false. -/
theorem C6_failures_folded_session_usable_witness :
    (handleSubmit sampleEnv 0 1 (InvokeOutcome.thrown "boom") sampleSubmitState).1.isLoading
      = false
    ∧ (handleSubmit sampleEnv 0 1 (InvokeOutcome.thrown "boom") sampleSubmitState).1.messages
        = sampleSubmitState.messages
            ++ [submitUserMessage 0 "hello", submitErrorMessage 1 "boom"] :=
  ⟨(C6_failures_folded_session_usable sampleEnv 0 1 "boom" sampleSubmitState
      (by decide) rfl).1 (InvokeOutcome.thrown "boom"),
   (C6_failures_folded_session_usable sampleEnv 0 1 "boom" sampleSubmitState
      (by decide) rfl).2.1⟩

/-- C1 counterexample: with the sample session holding a pending
`shell_executor` call, an `approve_tool_call` with a different tool name does
not fail with `UnknownRequestError` — it returns the execution-result string. -/
theorem C1_counterexample :
    samplePendingState.pendingApproval = some samplePending
    ∧ mockInvoke "approve_tool_call"
        [("toolName", Value.vstr "file_reader"),
         ("arguments", Value.vstr "\x7b\"path\":\"/etc/hosts\"\x7d")] 0
      = Value.vstr "Tool call file_reader approved and executed"
    ∧ "file_reader" ≠ samplePending.toolName :=
  ⟨rfl, rfl, by decide⟩

/-- C1 (amended): `approve_tool_call` performs no matching against the pending
request and never fails with `UnknownRequestError`: whatever the pending
ToolCall, approving appends an execution-result message built from its tool
name and clears the pending approval. -/
theorem C1_amended_approve_ignores_matching (s : AppState) (p : PendingApproval)
    (now2 : Nat) (r : ℚ) (h : s.pendingApproval = some p) :
    (handleApproveOperationMock now2 r s).1.messages
      = s.messages ++ [approveResultMessage now2
          (Value.vstr ("Tool call " ++ p.toolName ++ " approved and executed"))]
    ∧ (handleApproveOperationMock now2 r s).1.pendingApproval = none := by
  have hmock : mockInvoke "approve_tool_call" (approveCallArgs p) r
      = Value.vstr ("Tool call " ++ p.toolName ++ " approved and executed") := by
    unfold mockInvoke
    simp [approveCallArgs, lookupArg, displayOptValue, displayValue]
  simp only [handleApproveOperationMock, h]
  rw [hmock]
  unfold handleApproveOperation
  rw [h]
  refine ⟨?_, ?_⟩
  · simp [updateFirstOperation_messages]
  · simp [updateFirstOperation_pendingApproval]

/-- C1 witness: approving the sample pending call through the mock backend
returns an execution result and clears the approval. -/
theorem C1_amended_approve_ignores_matching_witness :
    (handleApproveOperationMock 7 0 samplePendingState).1.messages
      = samplePendingState.messages ++ [approveResultMessage 7
          (Value.vstr "Tool call shell_executor approved and executed")]
    ∧ (handleApproveOperationMock 7 0 samplePendingState).1.pendingApproval = none :=
  C1_amended_approve_ignores_matching samplePendingState samplePending 7 0 rfl

/-- C2 counterexample: two submissions identical except for the apiKey value
produce different log output — the mock `invoke` logs its full argument
record, apiKey included. -/
theorem C2_counterexample :
    (handleSubmitMock sampleEnv 0 1 0 sampleSubmitState).2
      ≠ (handleSubmitMock sampleEnvB 0 1 0 sampleSubmitState).2 := by
  have hg : ¬ (jsTrim sampleSubmitState.inputValue = ""
      ∨ sampleSubmitState.isLoading = true) := by decide
  have hA : (handleSubmitMock sampleEnv 0 1 0 sampleSubmitState).2
      = [mockLogEntry "process_user_message" (submitCallArgs sampleEnv "hello")] := by
    simp only [handleSubmitMock]
    rw [handleSubmit_calls _ _ _ _ _ hg]
    rfl
  have hB : (handleSubmitMock sampleEnvB 0 1 0 sampleSubmitState).2
      = [mockLogEntry "process_user_message" (submitCallArgs sampleEnvB "hello")] := by
    simp only [handleSubmitMock]
    rw [handleSubmit_calls _ _ _ _ _ hg]
    rfl
  rw [hA, hB]
  intro hEq
  have hproj := congrArg (fun logs : List LogEntry =>
    logs.map fun e => lookupArg e.2 "apiKey") hEq
  simp [mockLogEntry, submitCallArgs, lookupArg, sampleEnv, sampleEnvB, envOr] at hproj

/-- C2 (amended): secrets do flow into the log: `invoke` logs the command and
its full argument record, so the log output of processing a request differs
between any two configurations whose apiKey values differ. -/
theorem C2_amended_log_depends_on_apiKey (env env' : EnvConfig) (now now2 : Nat)
    (r r' : ℚ) (s : AppState)
    (hg : ¬ (jsTrim s.inputValue = "" ∨ s.isLoading = true))
    (hkey : envOr env.ANTHROPIC_API_KEY "" ≠ envOr env'.ANTHROPIC_API_KEY "") :
    (handleSubmitMock env now now2 r s).2 ≠ (handleSubmitMock env' now now2 r' s).2 := by
  simp only [handleSubmitMock]
  rw [handleSubmit_calls _ _ _ _ _ hg, handleSubmit_calls _ _ _ _ _ hg]
  intro hEq
  have hproj := congrArg (fun logs : List LogEntry =>
    logs.map fun e => lookupArg e.2 "apiKey") hEq
  simp [mockLogEntry, submitCallArgs, lookupArg] at hproj
  exact hkey hproj

/-- C2 witness: with the two sample keys the logs differ. -/
theorem C2_amended_log_depends_on_apiKey_witness :
    (handleSubmitMock sampleEnv 2 3 0 sampleSubmitState).2
      ≠ (handleSubmitMock sampleEnvB 2 3 0 sampleSubmitState).2 :=
  C2_amended_log_depends_on_apiKey sampleEnv sampleEnvB 2 3 0 0 sampleSubmitState
    (by decide) (by decide)

/-- C3 counterexample: two `process_user_message` calls with the same message
and configuration but different random draws return different results. -/
theorem C3_counterexample :
    mockInvoke "process_user_message" [("message", Value.vstr "hi")] (4/5)
      ≠ mockInvoke "process_user_message" [("message", Value.vstr "hi")] (1/2) := by
  have h1 : mockInvoke "process_user_message" [("message", Value.vstr "hi")] (4/5)
      = Value.vstr "PENDING_APPROVAL" := by
    unfold mockInvoke
    norm_num
    rfl
  have h2 : mockInvoke "process_user_message" [("message", Value.vstr "hi")] (1/2)
      = Value.vstr "Processed message: \"hi\"" := by
    unfold mockInvoke
    norm_num [lookupArg, displayOptValue, displayValue]
    rfl
  rw [h1, h2]
  intro hEq
  injection hEq with hs
  exact absurd hs (by decide)

/-- C3 (amended): whether a processed message leads to an approval requirement
is decided by the random draw, not by the tool name and argument payload: the
sentinel is returned exactly when the draw exceeds 0.7, for every message. -/
theorem C3_amended_random_decides_sentinel (args : List (String × Value)) (r : ℚ) :
    ((0.7 : ℚ) < r →
      mockInvoke "process_user_message" args r = Value.vstr "PENDING_APPROVAL")
    ∧ (¬ (0.7 : ℚ) < r →
      mockInvoke "process_user_message" args r
        = Value.vstr ("Processed message: \""
            ++ displayOptValue (lookupArg args "message") ++ "\"")) := by
  constructor <;> intro h <;> unfold mockInvoke <;> simp [h]

/-- C3 witness: a draw of 9/10 yields the sentinel. -/
theorem C3_amended_random_decides_sentinel_witness :
    mockInvoke "process_user_message" [("message", Value.vstr "hi")] (9/10)
      = Value.vstr "PENDING_APPROVAL" :=
  (C3_amended_random_decides_sentinel [("message", Value.vstr "hi")] (9/10)).1 (by norm_num)

/-- C4 counterexample: while the sample request is pending, a submission whose
result is the sentinel creates a second, different approval request (replacing
the first) — nothing prevents it from coming into existence. -/
theorem C4_counterexample :
    samplePendingState.pendingApproval = some samplePending
    ∧ (handleSubmit sampleEnv 10 20 (InvokeOutcome.ok (Value.vstr "PENDING_APPROVAL"))
        { samplePendingState with inputValue := "hello" }).1.pendingApproval
      = some (submitPendingApproval 20)
    ∧ (submitPendingApproval 20).id ≠ samplePending.id :=
  ⟨rfl, rfl, by decide⟩

/-- C4 (amended): the pending-approval state holds at most one request at a
time (an optional field), but `handleSubmit` does not guard on an existing
pending approval: a submission processed while one is pending replaces it with
a fresh request instead of being prevented. -/
theorem C4_amended_pending_replaced (env : EnvConfig) (now now2 : Nat) (s : AppState)
    (p : PendingApproval) (_h : s.pendingApproval = some p)
    (hg : ¬ (jsTrim s.inputValue = "" ∨ s.isLoading = true)) :
    (handleSubmit env now now2 (InvokeOutcome.ok (Value.vstr "PENDING_APPROVAL")) s).1.pendingApproval
      = some (submitPendingApproval now2) := by
  unfold handleSubmit
  rw [if_neg hg]
  rfl

/-- C4 witness: the sample pending approval is replaced by the new request. -/
theorem C4_amended_pending_replaced_witness :
    (handleSubmit sampleEnv 10 20 (InvokeOutcome.ok (Value.vstr "PENDING_APPROVAL"))
        { samplePendingState with inputValue := "hello" }).1.pendingApproval
      = some (submitPendingApproval 20) :=
  C4_amended_pending_replaced sampleEnv 10 20
    { samplePendingState with inputValue := "hello" } samplePending rfl (by decide)

/-- C7 counterexample: for the query `"invoice"` no index entry matches
(case-insensitive substring over name and path), yet `search_local_files`
returns the fixed two-entry list instead of the empty sequence. -/
theorem C7_counterexample :
    specFileSearch "invoice" mockIndexEntries = []
    ∧ mockInvoke "search_local_files" [("query", Value.vstr "invoice")] 0
        = Value.vlist (mockIndexEntries.map fileEntryToValue)
    ∧ (mockIndexEntries.map fileEntryToValue).length = 2 :=
  ⟨by decide, rfl, rfl⟩

/-- C7 (amended): `search_local_files` ignores its query: it returns the fixed
two-entry list `example.txt`, `document.pdf` for every query; it never fails,
but a query matching no entry still returns both entries rather than the
empty sequence. -/
theorem C7_amended_search_ignores_query (args : List (String × Value)) (r : ℚ) :
    mockInvoke "search_local_files" args r
      = Value.vlist (mockIndexEntries.map fileEntryToValue) := rfl

